import Mathlib

/-!
Shallow embedding of the core data-cleaning and derived-metrics pipeline of the
Strategic-Fleet-Telematics-Intelligence-Platform repository.

Two pipelines are embedded:
* `load_data` / `calculate_smart_cost` from `src/streamlit_app.py`
  (the odometer / mileage report), and
* `time_to_hours` / `load_and_clean_data` from `src/New.py`
  (the engine/boom time report).

Machine reals of the source (pandas floats) are modelled as `ℚ`; Python's
banker's rounding `round` is modelled by `pyRound`; spreadsheet cells are
modelled by small inductive types carrying either a value, malformed text, or
a missing marker (pandas `NaN`).
-/

namespace Fleet

/-- Python `\s` on the ASCII range: space and the control characters 9..13
(tab, newline, vertical tab, form feed, carriage return). -/
def isPySpace (c : Char) : Bool :=
  c.toNat = 32 || (9 ≤ c.toNat && c.toNat ≤ 13)

/-- Strip leading and trailing whitespace from a character list. -/
def pyStripList (l : List Char) : List Char :=
  ((l.dropWhile isPySpace).reverse.dropWhile isPySpace).reverse

/-- Python `str.strip()` (ASCII whitespace). -/
def pyStrip (s : String) : String :=
  String.mk (pyStripList s.toList)

/-- Python `round(x)`: round half to even (banker's rounding). -/
def pyRound (x : ℚ) : ℤ :=
  let n := ⌊x⌋
  let frac := x - (n : ℚ)
  if frac < 1 / 2 then n
  else if 1 / 2 < frac then n + 1
  else if n % 2 = 0 then n else n + 1

/-- Python `round(x, 2)`: banker's rounding at two decimal places. -/
def round2 (x : ℚ) : ℚ :=
  (pyRound (x * 100) : ℚ) / 100

/-- Value of a nonempty all-digit character list, `none` otherwise. -/
def digitsVal (l : List Char) : Option ℕ :=
  if l.isEmpty then none
  else if l.all Char.isDigit then
    some (l.foldl (fun acc c => 10 * acc + (c.toNat - 48)) 0)
  else none

/-- CPython `int(str)` on plain ASCII decimal literals: surrounding
whitespace, an optional sign, then a nonempty digit run. -/
def pyInt (s : String) : Option ℤ :=
  match pyStripList s.toList with
  | '-' :: rest => (digitsVal rest).map (fun n => -(n : ℤ))
  | '+' :: rest => (digitsVal rest).map (fun n => (n : ℤ))
  | rest => (digitsVal rest).map (fun n => (n : ℤ))

/-- Numeric value of `whole.frac` digit lists (either side may be empty but
not both), as used by `pyFloat`. -/
def floatVal (l : List Char) : Option ℚ :=
  match l.splitOn '.' with
  | [w] => (digitsVal w).map (fun n => (n : ℚ))
  | [w, f] =>
    if w.isEmpty && f.isEmpty then none
    else
      match (if w.isEmpty then some 0 else digitsVal w),
            (if f.isEmpty then some 0 else digitsVal f) with
      | some a, some b => some ((a : ℚ) + (b : ℚ) / ((10 : ℚ) ^ f.length))
      | _, _ => none
  | _ => none

/-- The numeric-text parser behind `pd.to_numeric`, on the plain decimal
fragment (optional whitespace and sign, digits, optional fraction part);
anything else is a parse failure. -/
def pyFloat (s : String) : Option ℚ :=
  match pyStripList s.toList with
  | '-' :: rest => (floatVal rest).map Neg.neg
  | '+' :: rest => floatVal rest
  | rest => floatVal rest


/-- Upper-case one ASCII character (`str.upper` acts characterwise). -/
def pyUpperChar (c : Char) : Char :=
  if 'a' ≤ c && c ≤ 'z' then Char.ofNat (c.toNat - 32) else c

/-- Python `str.upper()` on ASCII text. -/
def pyUpper (s : String) : String :=
  String.mk (s.toList.map pyUpperChar)

/-- Does `n` occur as a leading segment of `h`? -/
def listHasPre : List Char → List Char → Bool
  | [], _ => true
  | _ :: _, [] => false
  | a :: as, b :: bs => a == b && listHasPre as bs

/-- Does `n` occur as a contiguous segment of `h`? -/
def listContainsSub (n : List Char) : List Char → Bool
  | [] => n.isEmpty
  | c :: t => listHasPre n (c :: t) || listContainsSub n t

/-- Python `needle in hay` on strings (substring containment). -/
def containsSub (needle hay : String) : Bool :=
  listContainsSub needle.toList hay.toList

/-- One spreadsheet cell of a numeric column: missing (pandas `NaN`), an
actual number, or malformed text. -/
inductive Cell where
  | empty : Cell
  | num : ℚ → Cell
  | str : String → Cell
deriving DecidableEq

/-- `pd.to_numeric(col, errors="coerce").fillna(0)`: numbers pass through,
missing cells and unparsable text coerce to `0`. -/
def toNumCoerce : Cell → ℚ
  | .empty => 0
  | .num q => q
  | .str s => (pyFloat s).getD 0

/-- `astype(str)` on a cell of a text column: a missing cell (pandas `NaN`)
prints as the string `"nan"`. -/
def cellStr (c : Option String) : String :=
  c.getD "nan"

end Fleet

namespace Fleet

/-! ## Mileage pipeline (`src/streamlit_app.py`, `load_data`) -/

/-- One raw data row of the mileage report, in source column order
`Sr, Plate, Make, Location, Start_Km, End_Km, Total_Km`.  Text columns are
`Option String` (`none` = missing cell), numeric columns are `Cell`. -/
structure RawMileageRow where
  sr : Cell
  plate : Option String
  make : Option String
  location : Option String
  start_km : Cell
  end_km : Cell
  total_km : Cell
deriving DecidableEq

/-- First `replace` table of the location pipeline: collapse site-name
variants to an upper-case city key. -/
def locAliases : List (String × String) :=
  [("CWL-DUBAI", "DUBAI"), ("CWL DUBAI", "DUBAI"),
   ("SHJ-THAMEEM", "SHARJAH"), ("AUH", "ABU DHABI")]

/-- Second `replace` table: upper-case city key to canonical display name. -/
def locCanonical : List (String × String) :=
  [("DUBAI", "Dubai"), ("ABU DHABI", "Abu Dhabi"), ("SHARJAH", "Sharjah"),
   ("AL AIN", "Al Ain"), ("AJMAN", "Ajman"), ("FUJAIRAH", "Fujairah"),
   ("RAS AL KHAIMAH", "Ras Al Khaimah")]

/-- `Series.replace(dict)`: a value equal to a key is replaced, any other
value is left unchanged. -/
def replaceByTable (table : List (String × String)) (s : String) : String :=
  (table.lookup s).getD s

/-- The location column pipeline:
`astype(str).str.upper().replace(locAliases).replace(locCanonical).fillna("Other")`.
After `astype(str)` every value is a string, so the trailing
`fillna("Other")` in the source can never fire and is the identity. -/
def normalizeLocation (c : Option String) : String :=
  replaceByTable locCanonical (replaceByTable locAliases (pyUpper (cellStr c)))

/-- The fixed latitude/longitude table keyed by canonical location. -/
def coordsTable : List (String × (ℚ × ℚ)) :=
  [("Dubai", (25.20, 55.27)), ("Abu Dhabi", (24.45, 54.37)),
   ("Sharjah", (25.34, 55.42)), ("Al Ain", (24.13, 55.74)),
   ("Ajman", (25.40, 55.51)), ("Fujairah", (25.12, 56.32)),
   ("Ras Al Khaimah", (25.80, 55.97)), ("Other", (25.0, 55.0))]

/-- `coords.get(x, coords["Other"])`: a location absent from the table falls
back to the `"Other"` coordinates. -/
def coordsFor (loc : String) : ℚ × ℚ :=
  (coordsTable.lookup loc).getD (25.0, 55.0)

/-- Is `c` in the character class `[A-Z0-9-]` of the plate regex? -/
def plateClass (c : Char) : Bool :=
  ('A' ≤ c && c ≤ 'Z') || ('0' ≤ c && c ≤ '9') || c == '-'

/-- `str.extract(r"^([A-Z0-9-]+)\s*(.*)$")`: the match succeeds exactly when
the string opens with a character of the class; group 1 is the maximal
leading class run, group 2 is the rest after the greedy whitespace skip. -/
def extractPlate (s : String) : Option (String × String) :=
  let cs := s.toList
  let run := cs.takeWhile plateClass
  if run.isEmpty then none
  else some (String.mk run, String.mk ((cs.drop run.length).dropWhile isPySpace))

/-- `Vehicle_ID`: group 1 of the plate extraction, `fillna` with the whole
plate string when the regex did not match. -/
def vehicleId (plate : String) : String :=
  ((extractPlate plate).map Prod.fst).getD plate

/-- `Role_Notes`: group 2 of the plate extraction, then
`fillna("General Pool").replace("", "General Pool").str.strip()`. -/
def roleNotes (plate : String) : String :=
  pyStrip (match extractPlate plate with
    | none => "General Pool"
    | some (_, r) => if r = "" then "General Pool" else r)

/-- `pd.cut(End_Km, bins=[0, 50000, 100000, inf], labels=..., include_lowest=True)`
followed by `astype(str)`.  `pd.cut` defaults to right-closed intervals, so
the bins are `[0, 50000]`, `(50000, 100000]`, `(100000, ∞)`; a value outside
every bin (negative) becomes `NaN`, printed `"nan"` by `astype(str)`. -/
def maintenanceBand (endKm : ℚ) : String :=
  if 0 ≤ endKm ∧ endKm ≤ 50000 then "Fresh (<50k km)"
  else if 50000 < endKm ∧ endKm ≤ 100000 then "Mid-Life (50-100k km)"
  else if 100000 < endKm then "End-of-Life (>100k km)"
  else "nan"

/-- One cleaned mileage record.  `start_km` is carried through untouched:
the source never coerces or renames it after the positional rename. -/
structure MileageRow where
  vehicle_id : String
  role_notes : String
  make : String
  location : String
  lat : ℚ
  lon : ℚ
  start_km : Cell
  end_km : ℚ
  total_km : ℚ
  maintenance_band : String
deriving DecidableEq

/-- The per-row part of `load_data`: numeric coercion with zero fill, make
normalization, plate extraction, location normalization, coordinates, and
the maintenance band. -/
def cleanMileageRow (r : RawMileageRow) : MileageRow :=
  let totalKm := toNumCoerce r.total_km
  let endKm := toNumCoerce r.end_km
  let make := pyStrip (pyUpper (cellStr r.make))
  let plate := cellStr r.plate
  let location := normalizeLocation r.location
  { vehicle_id := vehicleId plate
    role_notes := roleNotes plate
    make := make
    location := location
    lat := (coordsFor location).1
    lon := (coordsFor location).2
    start_km := r.start_km
    end_km := endKm
    total_km := totalKm
    maintenance_band := maintenanceBand endKm }

/-- `load_data` (after the file read): `dropna(subset=[df.columns[0]])` keeps
exactly the rows whose first column (the `Sr` serial column) is non-missing,
then every kept row is cleaned.  No later step drops a row. -/
def load_data (rows : List RawMileageRow) : List MileageRow :=
  (rows.filter (fun r => r.sr ≠ Cell.empty)).map cleanMileageRow

/-- Base consumption rates (L/100km), module constant `fuel_rates`. -/
def fuel_rates : List (String × ℚ) :=
  [("NISSAN SUNNY", 8.0), ("NISSAN ALTIMA", 8.5), ("MAZDA", 9.0),
   ("ASHOK LEYLAND", 16.0), ("MITSUBISHI CANTER", 15.0)]

/-- The fixed petrol-vehicle set of `calculate_smart_cost`. -/
def petrolMakes : List String :=
  ["NISSAN SUNNY", "NISSAN ALTIMA", "MAZDA"]

/-- `calculate_smart_cost(row)` with the three sidebar parameters made
explicit.  The health factor is chosen by Python substring tests
(`"Mid-Life" in row["Maintenance_Band"]`, ...). -/
def calculate_smart_cost (petrol_price diesel_price global_eff : ℚ)
    (row : MileageRow) : ℤ :=
  let rate := (fuel_rates.lookup row.make).getD 12.0
  let health_factor : ℚ :=
    if containsSub "Mid-Life" row.maintenance_band then 1.05
    else if containsSub "End-of-Life" row.maintenance_band then 1.15
    else 1.0
  let rate := rate * health_factor * global_eff
  let price := if row.make ∈ petrolMakes then petrol_price else diesel_price
  pyRound ((row.total_km / 100) * rate * price)

end Fleet

namespace Fleet

/-! ## Time pipeline (`src/New.py`, `time_to_hours` and `load_and_clean_data`) -/

/-- A raw duration cell as received by `time_to_hours`: missing
(`pd.isna`), already numeric (spreadsheet fractional-day serialization), or
text. -/
inductive TimeVal where
  | na : TimeVal
  | num : ℚ → TimeVal
  | str : String → TimeVal
deriving DecidableEq

/-- `list(map(int, parts))`: every part must parse as an integer, otherwise
the whole conversion raises (and `time_to_hours` falls into its `except`). -/
def parseParts : List String → Option (List ℤ)
  | [] => some []
  | s :: t =>
    match pyInt s, parseParts t with
    | some v, some vs => some (v :: vs)
    | _, _ => none

/-- `time_to_hours`: missing gives `0.0`; a raw number is a fractional day
and is multiplied by `24`; text is split on `":"` and every part passed
through `int(...)` — on `[h, m, s, ...]` the result is
`round(h + m/60 + s/3600, 2)`; any failure (a non-integer part, or fewer
than three parts) lands in the bare `except` and gives `0.0`. -/
def time_to_hours : TimeVal → ℚ
  | .na => 0
  | .num q => q * 24
  | .str s =>
    match parseParts ((s.toList.splitOn ':').map String.mk) with
    | some (p0 :: p1 :: p2 :: _) =>
        round2 ((p0 : ℚ) + (p1 : ℚ) / 60 + (p2 : ℚ) / 3600)
    | _ => 0

/-- A cell of the `Grouping` (date) column: missing, a date that
`pd.to_datetime` parses (carried as an ordinal day number), or text it
cannot parse. -/
inductive DCell where
  | empty : DCell
  | valid : ℤ → DCell
  | invalid : String → DCell
deriving DecidableEq

/-- `pd.to_datetime(col, errors="coerce")` on one cell: a parsable date
survives, everything else is `NaT`. -/
def dateParse : DCell → Option ℤ
  | .valid d => some d
  | _ => none

/-- One raw data row of the time report, carrying the `Grouping`,
`Engine hours` and `Boom Operation time` cells. -/
structure RawTimeRow where
  date : DCell
  engineRaw : TimeVal
  workRaw : TimeVal
deriving DecidableEq

/-- The raw time report: the (unstripped) header names and the data rows. -/
structure TimeTable where
  header : List String
  rows : List RawTimeRow
deriving DecidableEq

/-- The required-column set of `load_and_clean_data`. -/
def required_columns : List String :=
  ["Grouping", "Engine hours", "Boom Operation time"]

/-- The fatal missing-column condition, modelling
`st.error(... {required_columns})` followed by `st.stop()`: the error names
the required columns (and the missing ones among them) and aborts the whole
load. -/
structure SchemaError where
  named_columns : List String
deriving DecidableEq

/-- One cleaned time record. -/
structure CleanTimeRow where
  date : ℤ
  engine_hours : ℚ
  work_hours : ℚ
  idle_hours : ℚ
  utilization : ℚ
deriving DecidableEq

/-- The per-row derivations of `load_and_clean_data`: duration conversion,
`Idle_Hours = (Engine - Work).clip(lower=0)`, and the guarded utilization
lambda. -/
def cleanTimeRow (d : ℤ) (r : RawTimeRow) : CleanTimeRow :=
  let engine := time_to_hours r.engineRaw
  let work := time_to_hours r.workRaw
  let idle := max (engine - work) 0
  let util := if engine > 0 then work / engine * 100 else 0
  { date := d, engine_hours := engine, work_hours := work
    idle_hours := idle, utilization := util }

/-- Insert a record into a date-ordered list (`sort_values("Date")`). -/
def insertByDate (r : CleanTimeRow) : List CleanTimeRow → List CleanTimeRow
  | [] => [r]
  | a :: t => if r.date ≤ a.date then r :: a :: t else a :: insertByDate r t

/-- `df.sort_values("Date")`: reorder the cleaned rows by ascending date
(the claims below depend only on the multiset of rows, not on which sort
the library uses). -/
def sortByDate : List CleanTimeRow → List CleanTimeRow
  | [] => []
  | a :: t => insertByDate a (sortByDate t)

/-- `load_and_clean_data` (after the file read): strip the header names,
abort with the column error if a required column is absent, drop rows with
a missing date, coerce-parse the dates and drop the unparsable ones, derive
the per-row metrics, and sort by date. -/
def load_and_clean_data (t : TimeTable) : Except SchemaError (List CleanTimeRow) :=
  let header := t.header.map pyStrip
  if required_columns.all (fun c => header.contains c) then
    let kept := t.rows.filter (fun r => r.date ≠ DCell.empty)
    let parsed := kept.filterMap (fun r => (dateParse r.date).map (fun d => cleanTimeRow d r))
    .ok (sortByDate parsed)
  else
    .error ⟨required_columns⟩

end Fleet

namespace Fleet

/-! ## Helper lemmas -/

/-- Membership is invariant under `insertByDate`. -/
theorem mem_insertByDate (x r : CleanTimeRow) (l : List CleanTimeRow) :
    x ∈ insertByDate r l ↔ x = r ∨ x ∈ l := by
  induction l with
  | nil => simp [insertByDate]
  | cons a t ih =>
    by_cases hle : r.date ≤ a.date
    · simp [insertByDate, hle, List.mem_cons]
    · simp [insertByDate, hle, List.mem_cons, ih]
      tauto

/-- Membership is invariant under `sortByDate`. -/
theorem mem_sortByDate (x : CleanTimeRow) (l : List CleanTimeRow) :
    x ∈ sortByDate l ↔ x ∈ l := by
  induction l with
  | nil => simp [sortByDate]
  | cons a t ih => simp [sortByDate, mem_insertByDate, ih, List.mem_cons]

/-- `insertByDate` grows the length by one. -/
theorem length_insertByDate (r : CleanTimeRow) (l : List CleanTimeRow) :
    (insertByDate r l).length = l.length + 1 := by
  induction l with
  | nil => rfl
  | cons a t ih =>
    by_cases hle : r.date ≤ a.date
    · simp [insertByDate, hle]
    · simp [insertByDate, hle, ih]

/-- `sortByDate` preserves the length. -/
theorem length_sortByDate (l : List CleanTimeRow) :
    (sortByDate l).length = l.length := by
  induction l with
  | nil => rfl
  | cons a t ih => simp [sortByDate, length_insertByDate, ih]

/-- The length of a `filterMap` counts the inputs the function accepts. -/
theorem length_filterMap_eq_countP {α β : Type} (f : α → Option β) (l : List α) :
    (l.filterMap f).length = l.countP (fun a => (f a).isSome) := by
  induction l with
  | nil => rfl
  | cons a t ih =>
    cases h : f a <;>
      simp [List.filterMap_cons, h, List.countP_cons, ih]

/-- Every row of a successful `load_and_clean_data` output is the cleaning of
some raw row whose date cell parsed. -/
theorem mem_of_load_ok {t : TimeTable} {rows : List CleanTimeRow} {row : CleanTimeRow}
    (h : load_and_clean_data t = .ok rows) (hrow : row ∈ rows) :
    ∃ r ∈ t.rows, ∃ d, dateParse r.date = some d ∧ row = cleanTimeRow d r := by
  unfold load_and_clean_data at h
  dsimp only at h
  split at h
  · rename_i hall
    injection h with h
    subst h
    rw [mem_sortByDate] at hrow
    obtain ⟨r, hr, hparse⟩ := List.mem_filterMap.mp hrow
    obtain ⟨d, hd, hrow'⟩ := Option.map_eq_some'.mp hparse
    exact ⟨r, (List.mem_filter.mp hr).1, d, hd, hrow'.symm⟩
  · exact absurd h (by simp)

/-- The maintenance band is always one of the three labels or `"nan"`. -/
theorem maintenanceBand_mem (x : ℚ) :
    maintenanceBand x ∈
      (["Fresh (<50k km)", "Mid-Life (50-100k km)", "End-of-Life (>100k km)", "nan"]
        : List String) := by
  unfold maintenanceBand
  split_ifs <;> simp

end Fleet

namespace Fleet

/-! ## Claim C1: maintenance-band binning -/

/-- Claim C1 (counterexample): the claim asserts half-open binning with
`end_km = 50000` classified Mid-Life and `end_km = 100000` classified
End-of-Life; `pd.cut` uses right-closed bins, so `50000` is Fresh and
`100000` is Mid-Life. -/
theorem maintenance_band_claim_cex :
    maintenanceBand 50000 = "Fresh (<50k km)"
    ∧ maintenanceBand 50000 ≠ "Mid-Life (50-100k km)"
    ∧ maintenanceBand 100000 = "Mid-Life (50-100k km)"
    ∧ maintenanceBand 100000 ≠ "End-of-Life (>100k km)" := by
  with_unfolding_all decide

/-- Claim C1 (amended): for nonnegative `end_km` the bins are right-closed:
`[0, 50000]` is Fresh, `(50000, 100000]` is Mid-Life, `(100000, ∞)` is
End-of-Life; in particular `end_km = 50000` is Fresh, `end_km = 100000` is
Mid-Life, and `end_km = 49999.99` is Fresh. -/
theorem maintenance_band_right_closed (x : ℚ) (hx : 0 ≤ x) :
    (x ≤ 50000 → maintenanceBand x = "Fresh (<50k km)")
    ∧ (50000 < x → x ≤ 100000 → maintenanceBand x = "Mid-Life (50-100k km)")
    ∧ (100000 < x → maintenanceBand x = "End-of-Life (>100k km)")
    ∧ maintenanceBand (49999.99 : ℚ) = "Fresh (<50k km)" := by
  refine ⟨fun h => ?_, fun ha hb => ?_, fun h => ?_, by with_unfolding_all decide⟩
  · simp [maintenanceBand, hx, h]
  · have h1 : ¬ x ≤ 50000 := not_le.mpr ha
    simp [maintenanceBand, h1, ha, hb]
  · have h1 : ¬ x ≤ 50000 := not_le.mpr (by linarith)
    have h2 : ¬ x ≤ 100000 := not_le.mpr h
    simp [maintenanceBand, h1, h2, h]

/-- Witness for `maintenance_band_right_closed` at `end_km = 100000`. -/
theorem maintenance_band_right_closed_witness :
    maintenanceBand 100000 = "Mid-Life (50-100k km)" :=
  (maintenance_band_right_closed 100000 (by norm_num)).2.1 (by norm_num) (by norm_num)

end Fleet

namespace Fleet

/-! ## Claim C2: location normalization -/

/-- Claim C2 (counterexample): the claim asserts every unrecognized location
maps to the `"Unknown"`/`"Other"` sentinel; in the code the `fillna("Other")`
sits after `astype(str)` and never fires, so `"London"` stays `"LONDON"`. -/
theorem location_unknown_claim_cex :
    normalizeLocation (some "London") = "LONDON"
    ∧ normalizeLocation (some "London") ≠ "Unknown"
    ∧ normalizeLocation (some "London") ≠ "Other" := by
  with_unfolding_all decide

/-- Claim C2 (amended): `"CWL-DUBAI"` and `"CWL DUBAI"` both normalize to
`"Dubai"`; a value recognized by neither replace table keeps its upper-cased
form (it is not renamed to a sentinel), no row is ever dropped because of
its location, and only the coordinate lookup falls back to the `"Other"`
coordinates for unrecognized locations. -/
theorem location_normalization_amended (s : String)
    (h1 : locAliases.lookup (pyUpper s) = none)
    (h2 : locCanonical.lookup (pyUpper s) = none) :
    normalizeLocation (some "CWL-DUBAI") = "Dubai"
    ∧ normalizeLocation (some "CWL DUBAI") = "Dubai"
    ∧ normalizeLocation (some s) = pyUpper s
    ∧ (∀ rows : List RawMileageRow,
        (load_data rows).length = (rows.filter (fun r => r.sr ≠ Cell.empty)).length)
    ∧ (∀ loc : String, coordsTable.lookup loc = none
        → coordsFor loc = ((25.0 : ℚ), (55.0 : ℚ))) := by
  refine ⟨by with_unfolding_all decide, by with_unfolding_all decide, ?_, ?_, ?_⟩
  · simp [normalizeLocation, replaceByTable, cellStr, h1, h2]
  · intro rows
    simp [load_data]
  · intro loc h
    simp [coordsFor, h]

/-- Witness for `location_normalization_amended` at the unrecognized
location `"Sharjah City"`. -/
theorem location_normalization_amended_witness :
    normalizeLocation (some "Sharjah City") = pyUpper "Sharjah City" :=
  (location_normalization_amended "Sharjah City"
    (by with_unfolding_all decide) (by with_unfolding_all decide)).2.2.1

end Fleet

namespace Fleet

/-! ## Claim C3: row filtering -/

/-- Claim C3 (counterexample): the claim asserts the mileage pipeline drops
exactly the rows whose plate/ID column is empty or unparsable; the code
drops on the first column (`Sr`), so a row with a valid plate but an empty
first cell is dropped, and a row with a missing plate but a numeric first
cell is kept. -/
theorem row_filtering_claim_cex :
    load_data [{ sr := Cell.empty, plate := some "1-98025", make := some "MAZDA",
                 location := some "DUBAI", start_km := Cell.num 0,
                 end_km := Cell.num 10, total_km := Cell.num 10 }] = []
    ∧ load_data [{ sr := Cell.num 1, plate := none, make := some "MAZDA",
                   location := some "DUBAI", start_km := Cell.num 0,
                   end_km := Cell.num 10, total_km := Cell.num 10 }] ≠ [] := by
  with_unfolding_all decide

/-- Claim C3 (amended): the time-log drops exactly the rows whose date cell
is empty or unparsable; the mileage-log drops exactly the rows whose first
(`Sr`) column is empty; an unparsable or missing `End_Km`/`Total_Km` is
coerced to `0` with the row retained, while `Start_Km` is carried through
unmodified (never coerced). -/
theorem row_filtering_amended (t : TimeTable) (rows : List CleanTimeRow)
    (h : load_and_clean_data t = .ok rows) (rs : List RawMileageRow)
    (s : String) (hs : pyFloat s = none) :
    rows.length = t.rows.countP (fun r => (dateParse r.date).isSome)
    ∧ (load_data rs).length = rs.countP (fun r => r.sr ≠ Cell.empty)
    ∧ toNumCoerce (Cell.str s) = 0
    ∧ toNumCoerce Cell.empty = 0
    ∧ (∀ r : RawMileageRow, (cleanMileageRow r).end_km = toNumCoerce r.end_km
        ∧ (cleanMileageRow r).total_km = toNumCoerce r.total_km
        ∧ (cleanMileageRow r).start_km = r.start_km) := by
  refine ⟨?_, ?_, by simp [toNumCoerce, hs], rfl, fun r => ⟨rfl, rfl, rfl⟩⟩
  · unfold load_and_clean_data at h
    dsimp only at h
    split at h
    · injection h with h
      subst h
      rw [length_sortByDate, length_filterMap_eq_countP, List.countP_filter]
      refine List.countP_congr (fun r _ => ?_)
      cases hr : r.date <;> simp [dateParse, hr]
    · exact absurd h (by simp)
  · simp [load_data, List.countP_eq_length_filter]

/-- Witness for `row_filtering_amended` on a one-row table and the
unparsable odometer text `"N/A"`. -/
theorem row_filtering_amended_witness :
    toNumCoerce (Cell.str "N/A") = 0 :=
  (row_filtering_amended
    ⟨required_columns, [⟨DCell.valid 0, TimeVal.na, TimeVal.na⟩]⟩
    [cleanTimeRow 0 ⟨DCell.valid 0, TimeVal.na, TimeVal.na⟩]
    (by with_unfolding_all rfl) [] "N/A" (by decide)).2.2.1

end Fleet

namespace Fleet

/-! ## Claim C4: fuel-cost formula -/

/-- The health-multiplier schedule as the spec words it, keyed by the
maintenance band: identity for Fresh (and for the `"nan"` band of a
negative odometer), `1.05` for Mid-Life, `1.15` for End-of-Life. -/
def spec_health_multiplier (band : String) : ℚ :=
  if band = "Mid-Life (50-100k km)" then 1.05
  else if band = "End-of-Life (>100k km)" then 1.15
  else 1.0

/-- The fuel-cost formula as the spec words it:
`round((total_km/100) * base_rate_for_make * health_multiplier(band)
* global_efficiency_multiplier * unit_price)`, where the base rate falls
back to `12.0` for unrecognized makes and the unit price is the petrol
price exactly when the make is in the fixed petrol set. -/
def spec_fuel_cost (petrol_price diesel_price global_eff : ℚ)
    (make band : String) (total_km : ℚ) : ℤ :=
  let base_rate := (fuel_rates.lookup make).getD 12.0
  let unit_price := if make ∈ petrolMakes then petrol_price else diesel_price
  pyRound ((total_km / 100) * base_rate * spec_health_multiplier band
    * global_eff * unit_price)

end Fleet

namespace Fleet

/-- On any of the four band labels the source's substring-test health factor
agrees with the spec's schedule. -/
theorem health_factor_eq (b : String)
    (hb : b ∈ (["Fresh (<50k km)", "Mid-Life (50-100k km)",
                "End-of-Life (>100k km)", "nan"] : List String)) :
    (if containsSub "Mid-Life" b then (1.05 : ℚ)
     else if containsSub "End-of-Life" b then 1.15
     else 1.0) = spec_health_multiplier b := by
  simp only [List.mem_cons, List.not_mem_nil, or_false] at hb
  rcases hb with h | h | h | h <;> subst h <;> with_unfolding_all decide

/-- Claim C4: for every cleaned mileage row the computed cost equals the
spec's formula `round((total_km/100) * base_rate * health_multiplier(band)
* global_multiplier * unit_price)`; in particular make `"MAZDA"`,
`total_km = 200`, default rates, petrol `2.60`, multiplier `1.0` and a
Fresh band give cost `47`. -/
theorem fuel_cost_formula (p d g : ℚ) (rows : List RawMileageRow)
    (row : MileageRow) (h : row ∈ load_data rows) :
    calculate_smart_cost p d g row
      = spec_fuel_cost p d g row.make row.maintenance_band row.total_km
    ∧ calculate_smart_cost (2.60 : ℚ) (2.85 : ℚ) (1.0 : ℚ)
        (cleanMileageRow ⟨Cell.num 1, some "1-1", some "MAZDA", some "DUBAI",
          Cell.num 0, Cell.num 10, Cell.num 200⟩) = 47 := by
  refine ⟨?_, by with_unfolding_all decide⟩
  simp only [load_data, List.mem_map] at h
  obtain ⟨r, hr, rfl⟩ := h
  have hband : (cleanMileageRow r).maintenance_band
      = maintenanceBand (toNumCoerce r.end_km) := rfl
  unfold calculate_smart_cost spec_fuel_cost
  dsimp only
  rw [hband, health_factor_eq _ (maintenanceBand_mem _)]
  congr 1
  ring

set_option maxRecDepth 8000 in
/-- Witness for `fuel_cost_formula` on a singleton upload. -/
theorem fuel_cost_formula_witness :
    calculate_smart_cost 3 4 2
        (cleanMileageRow ⟨Cell.num 1, some "7-70707 OPS", some "Ashok Leyland",
          some "AUH", Cell.num 0, Cell.num 60000, Cell.num 150⟩)
      = spec_fuel_cost 3 4 2
          (cleanMileageRow ⟨Cell.num 1, some "7-70707 OPS", some "Ashok Leyland",
            some "AUH", Cell.num 0, Cell.num 60000, Cell.num 150⟩).make
          (cleanMileageRow ⟨Cell.num 1, some "7-70707 OPS", some "Ashok Leyland",
            some "AUH", Cell.num 0, Cell.num 60000, Cell.num 150⟩).maintenance_band
          (cleanMileageRow ⟨Cell.num 1, some "7-70707 OPS", some "Ashok Leyland",
            some "AUH", Cell.num 0, Cell.num 60000, Cell.num 150⟩).total_km :=
  (fuel_cost_formula 3 4 2
    [⟨Cell.num 1, some "7-70707 OPS", some "Ashok Leyland",
      some "AUH", Cell.num 0, Cell.num 60000, Cell.num 150⟩] _
    (by with_unfolding_all exact List.mem_singleton.mpr rfl)).1

end Fleet

namespace Fleet

/-! ## Claim C5: duration conversion -/

/-- Claim C5: an `HH:MM:SS` duration string converts to
`hours + minutes/60 + seconds/3600` rounded to 2 decimals (so `"2:30:00"`
gives exactly `2.5`); a raw numeric duration is a fractional day and is
multiplied by `24` (so `0.5` gives `12.0`); any unparsable duration (a part
that is not an integer, or fewer than three parts) converts to `0.0`. -/
theorem duration_conversion (s a b c : String) (h m sec : ℤ)
    (hsplit : (s.toList.splitOn ':').map String.mk = [a, b, c])
    (ha : pyInt a = some h) (hb : pyInt b = some m) (hc : pyInt c = some sec) :
    time_to_hours (.str s) = round2 ((h : ℚ) + (m : ℚ) / 60 + (sec : ℚ) / 3600)
    ∧ (∀ q : ℚ, time_to_hours (.num q) = q * 24)
    ∧ time_to_hours (.num (0.5 : ℚ)) = (12.0 : ℚ)
    ∧ (∀ u : String, parseParts ((u.toList.splitOn ':').map String.mk) = none
        → time_to_hours (.str u) = 0)
    ∧ (∀ u : String, ∀ l : List ℤ,
        parseParts ((u.toList.splitOn ':').map String.mk) = some l
        → l.length < 3 → time_to_hours (.str u) = 0)
    ∧ time_to_hours (.str "2:30:00") = (2.5 : ℚ) := by
  refine ⟨?_, fun q => rfl, by with_unfolding_all decide, ?_, ?_,
    by with_unfolding_all decide⟩
  · simp only [time_to_hours, hsplit, parseParts, ha, hb, hc]
  · intro u hu
    simp only [time_to_hours, hu]
  · intro u l hu hl
    simp only [time_to_hours, hu]
    rcases l with _ | ⟨x, _ | ⟨y, _ | ⟨z, tl⟩⟩⟩
    · rfl
    · rfl
    · rfl
    · simp at hl
      omega

/-- Witness for `duration_conversion` at the literal `"2:30:00"`. -/
theorem duration_conversion_witness :
    time_to_hours (.str "2:30:00")
      = round2 ((2 : ℚ) + (30 : ℚ) / 60 + (0 : ℚ) / 3600) :=
  (duration_conversion "2:30:00" "2" "30" "00" 2 30 0
    (by with_unfolding_all decide) (by decide) (by decide) (by decide)).1

end Fleet

namespace Fleet

/-! ## Claim C6: plate-field extraction -/

/-- Claim C6: a matching plate splits into the maximal leading run of
uppercase letters, digits and hyphens (the `Vehicle_ID`) and the trailing
text after the whitespace skip (the `Role_Notes`, defaulting to
`"General Pool"` when blank); `"1-98025 RT-198"` gives `"1-98025"` /
`"RT-198"` and `"1-98025"` gives `"General Pool"`. -/
theorem plate_extraction (s run rest : String)
    (h : extractPlate s = some (run, rest)) :
    run.toList = s.toList.takeWhile plateClass
    ∧ run ≠ ""
    ∧ rest.toList = (s.toList.drop run.toList.length).dropWhile isPySpace
    ∧ vehicleId s = run
    ∧ roleNotes s = pyStrip (if rest = "" then "General Pool" else rest)
    ∧ vehicleId "1-98025 RT-198" = "1-98025"
    ∧ roleNotes "1-98025 RT-198" = "RT-198"
    ∧ vehicleId "1-98025" = "1-98025"
    ∧ roleNotes "1-98025" = "General Pool" := by
  have hrun : run.toList = s.toList.takeWhile plateClass ∧ run ≠ ""
      ∧ rest.toList = (s.toList.drop run.toList.length).dropWhile isPySpace := by
    unfold extractPlate at h
    dsimp only at h
    split at h
    · exact absurd h (by simp)
    · rename_i hne
      rw [Option.some.injEq, Prod.mk.injEq] at h
      obtain ⟨h1, h2⟩ := h
      subst h1
      subst h2
      refine ⟨rfl, ?_, rfl⟩
      intro hc
      have h0 : s.toList.takeWhile plateClass = [] := congrArg String.toList hc
      exact hne (by rw [h0]; rfl)
  refine ⟨hrun.1, hrun.2.1, hrun.2.2, ?_, ?_,
    by decide, by decide, by decide, by decide⟩
  · unfold vehicleId
    rw [h]
    rfl
  · unfold roleNotes
    rw [h]

/-- Witness for `plate_extraction` at `"1-98025 RT-198"`. -/
theorem plate_extraction_witness :
    ("1-98025" : String).toList
      = ("1-98025 RT-198" : String).toList.takeWhile plateClass :=
  (plate_extraction "1-98025 RT-198" "1-98025" "RT-198" (by decide)).1

end Fleet

namespace Fleet

/-! ## Claim C7: idle hours clamped non-negative -/

/-- Claim C7: every row of the cleaned time-log output has
`idle_hours = max(0, engine_hours - work_hours)`, hence never negative,
whatever the raw inputs were. -/
theorem idle_hours_clamped (t : TimeTable) (rows : List CleanTimeRow)
    (row : CleanTimeRow) (h : load_and_clean_data t = .ok rows)
    (hrow : row ∈ rows) :
    row.idle_hours = max 0 (row.engine_hours - row.work_hours)
    ∧ 0 ≤ row.idle_hours := by
  obtain ⟨r, -, d, -, rfl⟩ := mem_of_load_ok h hrow
  constructor
  · show max (time_to_hours r.engineRaw - time_to_hours r.workRaw) 0
      = max 0 (time_to_hours r.engineRaw - time_to_hours r.workRaw)
    exact max_comm _ _
  · exact le_max_right _ _

/-- Witness for `idle_hours_clamped` on a one-row upload whose work time
exceeds its engine time. -/
theorem idle_hours_clamped_witness :
    0 ≤ (cleanTimeRow 0 ⟨DCell.valid 0, TimeVal.num 1, TimeVal.num 2⟩).idle_hours :=
  (idle_hours_clamped
    ⟨required_columns, [⟨DCell.valid 0, TimeVal.num 1, TimeVal.num 2⟩]⟩
    [cleanTimeRow 0 ⟨DCell.valid 0, TimeVal.num 1, TimeVal.num 2⟩] _
    (by with_unfolding_all rfl)
    (List.mem_singleton.mpr rfl)).2

end Fleet

namespace Fleet

/-! ## Claim C8: guarded utilization -/

/-- Claim C8: a cleaned time-log row with `engine_hours = 0` has
`utilization_pct = 0` (the division is guarded), a row with
`engine_hours > 0` has `utilization_pct = work_hours/engine_hours*100`
with no upper clamp; a raw row with a quarter-hour engine time and a
half-hour work time indeed comes out at 200%. -/
theorem utilization_guarded (t : TimeTable) (rows : List CleanTimeRow)
    (row : CleanTimeRow) (h : load_and_clean_data t = .ok rows)
    (hrow : row ∈ rows) :
    (row.engine_hours = 0 → row.utilization = 0)
    ∧ (0 < row.engine_hours
        → row.utilization = row.work_hours / row.engine_hours * 100)
    ∧ (cleanTimeRow 0 ⟨DCell.valid 0, TimeVal.num (1 / 24),
        TimeVal.num (2 / 24)⟩).utilization = 200 := by
  obtain ⟨r, -, d, -, rfl⟩ := mem_of_load_ok h hrow
  refine ⟨fun h0 => ?_, fun hpos => ?_, by with_unfolding_all decide⟩
  · show (if time_to_hours r.engineRaw > 0
        then time_to_hours r.workRaw / time_to_hours r.engineRaw * 100
        else 0) = 0
    have : ¬ time_to_hours r.engineRaw > 0 := by
      have he : time_to_hours r.engineRaw = 0 := h0
      rw [he]
      exact lt_irrefl 0
    rw [if_neg this]
  · have hpos' : time_to_hours r.engineRaw > 0 := hpos
    show (if time_to_hours r.engineRaw > 0
        then time_to_hours r.workRaw / time_to_hours r.engineRaw * 100
        else 0) = _
    rw [if_pos hpos']
    rfl

/-- Witness for `utilization_guarded` on a one-row upload with zero engine
hours. -/
theorem utilization_guarded_witness :
    (cleanTimeRow 0 ⟨DCell.valid 0, TimeVal.num 0, TimeVal.num 1⟩).utilization = 0 :=
  (utilization_guarded
    ⟨required_columns, [⟨DCell.valid 0, TimeVal.num 0, TimeVal.num 1⟩]⟩
    [cleanTimeRow 0 ⟨DCell.valid 0, TimeVal.num 0, TimeVal.num 1⟩] _
    (by with_unfolding_all rfl)
    (List.mem_singleton.mpr rfl)).1 (by with_unfolding_all decide)

end Fleet

namespace Fleet

/-! ## Claim C9: missing required column aborts the load -/

/-- Claim C9: if a required time-log column is absent after header
trimming, the whole load aborts with the column error — the error names the
required columns (the missing one among them) and no row list is ever
returned. -/
theorem schema_error_aborts (t : TimeTable) (c : String)
    (hc : c ∈ required_columns) (hmiss : c ∉ t.header.map pyStrip) :
    ∃ e : SchemaError, load_and_clean_data t = .error e
      ∧ c ∈ e.named_columns
      ∧ ∀ rows : List CleanTimeRow, load_and_clean_data t ≠ .ok rows := by
  have hfalse : ¬ (required_columns.all
      (fun x => (t.header.map pyStrip).contains x) = true) := by
    intro hall
    rw [List.all_eq_true] at hall
    exact hmiss (by simpa using hall c hc)
  refine ⟨⟨required_columns⟩, ?_, hc, ?_⟩
  · unfold load_and_clean_data
    dsimp only
    rw [if_neg hfalse]
  · intro rows hok
    unfold load_and_clean_data at hok
    dsimp only at hok
    rw [if_neg hfalse] at hok
    exact absurd hok (by simp)

/-- Witness for `schema_error_aborts`: a header missing the boom-time
column. -/
theorem schema_error_aborts_witness :
    ∃ e : SchemaError,
      load_and_clean_data ⟨[" Grouping ", "Engine hours"], []⟩ = .error e
      ∧ "Boom Operation time" ∈ e.named_columns
      ∧ ∀ rows : List CleanTimeRow,
          load_and_clean_data ⟨[" Grouping ", "Engine hours"], []⟩ ≠ .ok rows :=
  schema_error_aborts ⟨[" Grouping ", "Engine hours"], []⟩
    "Boom Operation time" (by decide) (by decide)

end Fleet

namespace Fleet

/-! ## Claim C10: missing odometer is silently Fresh -/

/-- Claim C10: a mileage row whose end-odometer cell is missing or
unparsable gets `end_km = 0`, lands in the Fresh band (the lowest bin
includes its left edge), receives the identity health multiplier `1.0`
inside the fuel-cost calculation, and is kept in the output rather than
flagged or dropped. -/
theorem missing_odometer_fresh (r : RawMileageRow)
    (h : r.end_km = Cell.empty ∨ ∃ s, r.end_km = Cell.str s ∧ pyFloat s = none)
    (hkept : r.sr ≠ Cell.empty) :
    (cleanMileageRow r).end_km = 0
    ∧ (cleanMileageRow r).maintenance_band = "Fresh (<50k km)"
    ∧ (∀ p d g : ℚ, calculate_smart_cost p d g (cleanMileageRow r)
        = pyRound (((cleanMileageRow r).total_km / 100)
            * ((fuel_rates.lookup (cleanMileageRow r).make).getD 12.0 * 1.0 * g)
            * (if (cleanMileageRow r).make ∈ petrolMakes then p else d)))
    ∧ cleanMileageRow r ∈ load_data [r] := by
  have he : toNumCoerce r.end_km = 0 := by
    rcases h with h | ⟨s, hs, hps⟩
    · rw [h]
      rfl
    · rw [hs]
      simp [toNumCoerce, hps]
  have hend : (cleanMileageRow r).end_km = 0 := he
  have hband : (cleanMileageRow r).maintenance_band = "Fresh (<50k km)" := by
    show maintenanceBand (toNumCoerce r.end_km) = _
    rw [he]
    with_unfolding_all decide
  refine ⟨hend, hband, ?_, ?_⟩
  · intro p d g
    unfold calculate_smart_cost
    dsimp only
    rw [hband]
    simp only [show containsSub "Mid-Life" "Fresh (<50k km)" = false from by decide,
      show containsSub "End-of-Life" "Fresh (<50k km)" = false from by decide,
      Bool.false_eq_true, if_false]
  · simp [load_data, List.filter_cons, hkept]

/-- Witness for `missing_odometer_fresh` on a row whose end odometer reads
`"N/A"`. -/
theorem missing_odometer_fresh_witness :
    (cleanMileageRow ⟨Cell.num 1, some "1-98025", some "MAZDA", some "DUBAI",
      Cell.num 0, Cell.str "N/A", Cell.num 100⟩).maintenance_band
      = "Fresh (<50k km)" :=
  (missing_odometer_fresh
    ⟨Cell.num 1, some "1-98025", some "MAZDA", some "DUBAI",
      Cell.num 0, Cell.str "N/A", Cell.num 100⟩
    (Or.inr ⟨"N/A", rfl, by decide⟩) (by decide)).2.1

end Fleet
